import Mathlib

/-!
Shallow embedding of the collaborative-whiteboard relay server
(src/src/index.ts) and verification of its specification claims.

The server keeps an in-memory table of rooms.  Each room holds the
current canvas (`drawings`), a stack of canvas snapshots (`history`,
JS array with push/pop at the end), a redo stack, the member
connections (`users`) and a creation timestamp (`startTime`).

Modelling conventions:
  * stroke payloads are opaque; all definitions are parametric in the
    stroke type `α`;
  * a WebSocket connection is identified by a natural number; JS
    reference equality between sockets becomes equality of identifiers;
  * `readyState === WebSocket.OPEN` is an environment function
    `isOpen : Conn → Bool`;
  * JS arrays with `push`/`pop` become Lean lists whose LAST element is
    the stack top (`push x` = `l ++ [x]`, `pop` = `(l.getLast?, l.dropLast)`);
  * `Math.random().toString(36).substring(2, 8)` is nondeterministic,
    so the generated identifier is passed to `createRoom` as an input;
  * `Date.now()` is passed as a `Nat` input;
  * a JS exception escaping a handler (e.g. `JSON.parse` on malformed
    input, or reading `.length` of an `undefined` strokes field) is
    modelled as `Except.error ()`.
-/

/-- A WebSocket connection, identified by a number (JS object identity). -/
abbrev Conn := Nat

/-- The draw payload kept in `drawings`: `drawData` after destructuring
the `roomId` away; its `strokes` field is what the server inspects. -/
structure DrawOp (α : Type) where
  strokes : List α
deriving DecidableEq, Repr

/-- The value stored in the `rooms` record for one room id
(src/src/index.ts lines 21-30). -/
structure Room (α : Type) where
  drawings : List (DrawOp α)
  history : List (List (DrawOp α))
  redoStack : List (List (DrawOp α))
  users : List Conn
  startTime : Nat
deriving DecidableEq, Repr

/-- The in-memory room table `rooms : Record<string, ...>`. -/
abbrev RoomMap (α : Type) := String → Option (Room α)

/-- The empty room table. -/
def emptyMap {α : Type} : RoomMap α := fun _ => none

/-- `rooms[k] = v` on a JS record. -/
def updateMap {α : Type} (m : RoomMap α) (k : String) (v : Room α) : RoomMap α :=
  fun q => if q = k then some v else m q

/-- `delete rooms[k]` on a JS record. -/
def removeMap {α : Type} (m : RoomMap α) (k : String) : RoomMap α :=
  fun q => if q = k then none else m q

/-- The room object installed by the create-room endpoint
(src/src/index.ts lines 37-43). -/
def freshRoom (α : Type) (now : Nat) : Room α :=
  { drawings := []
    history := [[]]
    redoStack := []
    users := []
    startTime := now }

/-- The create-room endpoint (src/src/index.ts lines 33-49): a room id is
generated (here received as the input `roomId`, since generation is
random) and the table entry is assigned unconditionally; the response
carries the id. -/
def createRoom {α : Type} (rooms : RoomMap α) (roomId : String) (now : Nat) :
    RoomMap α × String :=
  (updateMap rooms roomId (freshRoom α now), roomId)

/-- The connections `broadcast` sends to (src/src/index.ts lines 51-62):
each member in order, skipping `currentUser` when given, and skipping
members whose transport is not open. -/
def broadcastTargets (users : List Conn) (isOpen : Conn → Bool)
    (currentUser : Option Conn) : List Conn :=
  users.filter fun client =>
    (match currentUser with
      | some u => client != u
      | none => true) && isOpen client

/-- `checkAndDeleteRoom` (src/src/index.ts lines 64-73): delete the room
when it exists, has no users, and at least five minutes have elapsed
since `startTime`. -/
def checkAndDeleteRoom {α : Type} (roomId : String) (now : Nat)
    (rooms : RoomMap α) : RoomMap α :=
  match rooms roomId with
  | none => rooms
  | some room =>
      if room.users.length = 0 then
        if 5 * 60 * 1000 ≤ now - room.startTime then removeMap rooms roomId
        else rooms
      else rooms

/-- The `join-room` mutation (src/src/index.ts line 96): push the socket
onto the room's user list. -/
def Room.joinUser {α : Type} (r : Room α) (ws : Conn) : Room α :=
  { r with users := r.users ++ [ws] }

/-- The `draw` mutation (src/src/index.ts lines 114-117): ignore an empty
strokes list; otherwise append the op to `drawings`, push a copy of the
new `drawings` onto `history`, and clear `redoStack`. -/
def Room.applyDraw {α : Type} (r : Room α) (op : DrawOp α) : Room α :=
  if op.strokes.length = 0 then r
  else
    { r with
        drawings := r.drawings ++ [op]
        history := r.history ++ [r.drawings ++ [op]]
        redoStack := [] }

/-- The `undo` mutation (src/src/index.ts lines 125-127): when
`history.length > 1`, push a copy of `drawings` onto `redoStack` and set
`drawings` to `history.pop() || []` (the popped top itself). -/
def Room.applyUndo {α : Type} (r : Room α) : Room α :=
  if 1 < r.history.length then
    { r with
        redoStack := r.redoStack ++ [r.drawings]
        drawings := (r.history.getLast?).getD []
        history := r.history.dropLast }
  else r

/-- The `redo` mutation (src/src/index.ts lines 141-143): when
`redoStack` is non-empty, push a copy of `drawings` onto `history` and
set `drawings` to `redoStack.pop() || []`. -/
def Room.applyRedo {α : Type} (r : Room α) : Room α :=
  if 0 < r.redoStack.length then
    { r with
        history := r.history ++ [r.drawings]
        drawings := (r.redoStack.getLast?).getD []
        redoStack := r.redoStack.dropLast }
  else r

/-- The `clear` mutation (src/src/index.ts lines 157-159): push a copy of
`drawings` onto `history`, clear `redoStack`, empty `drawings`. -/
def Room.applyClear {α : Type} (r : Room α) : Room α :=
  { r with
      history := r.history ++ [r.drawings]
      redoStack := []
      drawings := [] }

/-- The `leave` mutation in the close handler (src/src/index.ts
lines 170-172): filter the socket out of the user list. -/
def Room.removeUser {α : Type} (r : Room α) (ws : Conn) : Room α :=
  { r with users := r.users.filter fun client => client ≠ ws }

/-- Outbound message envelopes produced by the server. -/
inductive OutMsg (α : Type) where
  | userJoined (username : String)
  | drawMsg (op : DrawOp α)
  | updateCanvas (drawings : List (DrawOp α))
deriving DecidableEq, Repr

/-- A parsed inbound envelope, as destructured by the message handler.
For `draw`, the payload's `strokes` field may be absent (`none`), in
which case reading `.length` of it throws. -/
inductive EventPayload (α : Type) where
  | joinRoom (roomId : String) (username : String)
  | draw (roomId : String) (strokes : Option (List α))
  | undoEv
  | redoEv
  | clearEv
  | otherEv
deriving DecidableEq, Repr

/-- Raw inbound data: either JSON that fails to parse, or a parsed
envelope. -/
inductive Inbound (α : Type) where
  | malformed
  | msg (p : EventPayload α)
deriving DecidableEq, Repr

/-- The `ws.on('message', ...)` handler (src/src/index.ts lines 88-165).
`queryRoomId` is the `room` query parameter bound at connection time
(used by `undo`/`redo`/`clear`); `join-room`/`draw` take the room id
from the payload.  Returns the new table and, per broadcast performed,
the message with the list of connections it was sent to; `Except.error`
marks an exception escaping the handler (`JSON.parse` failure, or
`drawData.strokes` being `undefined`). -/
def handleMessage {α : Type} (isOpen : Conn → Bool) (queryRoomId : String)
    (ws : Conn) (rooms : RoomMap α) (inb : Inbound α) :
    Except Unit (RoomMap α × List (OutMsg α × List Conn)) :=
  match inb with
  | .malformed => .error ()
  | .msg p =>
    match p with
    | .joinRoom roomId username =>
        match rooms roomId with
        | none => .ok (rooms, [])
        | some room =>
            let room2 := room.joinUser ws
            .ok (updateMap rooms roomId room2,
              [(OutMsg.userJoined username,
                broadcastTargets room2.users isOpen (some ws))])
    | .draw roomId strokesField =>
        match rooms roomId with
        | none => .ok (rooms, [])
        | some room =>
            match strokesField with
            | none => .error ()
            | some strokes =>
                if strokes.length = 0 then .ok (rooms, [])
                else
                  let room2 := room.applyDraw ⟨strokes⟩
                  .ok (updateMap rooms roomId room2,
                    [(OutMsg.drawMsg ⟨strokes⟩,
                      broadcastTargets room2.users isOpen (some ws))])
    | .undoEv =>
        match rooms queryRoomId with
        | none => .ok (rooms, [])
        | some room =>
            if 1 < room.history.length then
              let room2 := room.applyUndo
              .ok (updateMap rooms queryRoomId room2,
                [(OutMsg.updateCanvas room2.drawings,
                  broadcastTargets room2.users isOpen none)])
            else .ok (rooms, [])
    | .redoEv =>
        match rooms queryRoomId with
        | none => .ok (rooms, [])
        | some room =>
            if 0 < room.redoStack.length then
              let room2 := room.applyRedo
              .ok (updateMap rooms queryRoomId room2,
                [(OutMsg.updateCanvas room2.drawings,
                  broadcastTargets room2.users isOpen none)])
            else .ok (rooms, [])
    | .clearEv =>
        match rooms queryRoomId with
        | none => .ok (rooms, [])
        | some room =>
            let room2 := room.applyClear
            .ok (updateMap rooms queryRoomId room2,
              [(OutMsg.updateCanvas room2.drawings,
                broadcastTargets room2.users isOpen none)])
    | .otherEv => .ok (rooms, [])

/-- The `ws.on('close', ...)` handler (src/src/index.ts lines 168-177):
if the room named by the connection's `room` query parameter exists,
filter the socket out of its user list and run `checkAndDeleteRoom` on
that room. -/
def handleClose {α : Type} (queryRoomId : String) (ws : Conn) (now : Nat)
    (rooms : RoomMap α) : RoomMap α :=
  match rooms queryRoomId with
  | none => rooms
  | some room =>
      checkAndDeleteRoom queryRoomId now
        (updateMap rooms queryRoomId (room.removeUser ws))

/-- One canvas operation, for stating properties of operation sequences. -/
inductive CanvasOp (α : Type) where
  | drawOp (op : DrawOp α)
  | undoOp
  | redoOp
  | clearOp
deriving DecidableEq, Repr

/-- Apply one canvas operation to a room. -/
def Room.applyOp {α : Type} (r : Room α) : CanvasOp α → Room α
  | .drawOp op => r.applyDraw op
  | .undoOp => r.applyUndo
  | .redoOp => r.applyRedo
  | .clearOp => r.applyClear

/-- Apply a sequence of canvas operations, left to right. -/
def Room.applyOps {α : Type} (r : Room α) (ops : List (CanvasOp α)) : Room α :=
  ops.foldl Room.applyOp r

/-! ### Concrete sample values used by witnesses and counterexamples -/

/-- A sample draw op with one stroke. -/
def opA : DrawOp Nat := ⟨[1]⟩

/-- A second sample draw op. -/
def opB : DrawOp Nat := ⟨[2]⟩

/-- A room as it looks after two draws on a fresh room: two snapshots
beyond the empty baseline. -/
def roomTwo : Room Nat :=
  { drawings := [opA, opB]
    history := [[], [opA], [opA, opB]]
    redoStack := []
    users := [1, 2]
    startTime := 0 }

/-! ### Claims about undo (C1, C2, C10) -/

/-- C1: the spec claims that draw followed immediately by undo restores
`drawings` to its pre-draw value.  The code does not: `undo` assigns
`history.pop()` — the snapshot just pushed by the draw — back to
`drawings`, so after draw-then-undo `drawings` still contains the new
op and differs from the pre-draw value. -/
theorem draw_then_undo_keeps_new_drawing {α : Type} (r : Room α)
    (op : DrawOp α) (h : op.strokes ≠ []) :
    ((r.applyDraw op).applyUndo).drawings = r.drawings ++ [op] ∧
      ((r.applyDraw op).applyUndo).drawings ≠ r.drawings := by
  have hlen : ¬ op.strokes.length = 0 := by simpa using h
  have hmain : ((r.applyDraw op).applyUndo).drawings = r.drawings ++ [op] := by
    unfold Room.applyDraw Room.applyUndo
    rw [if_neg hlen]
    split
    · simp [List.getLast?_concat]
    · rfl
  refine ⟨hmain, ?_⟩
  rw [hmain]
  intro hc
  have := congrArg List.length hc
  simp at this

/-- Witness for C1's theorem at a concrete input. -/
theorem draw_then_undo_keeps_new_drawing_witness :
    opA.strokes ≠ [] ∧
      (((roomTwo.applyDraw opA).applyUndo).drawings = roomTwo.drawings ++ [opA] ∧
        ((roomTwo.applyDraw opA).applyUndo).drawings ≠ roomTwo.drawings) :=
  ⟨by decide, draw_then_undo_keeps_new_drawing roomTwo opA (by decide)⟩

/-- C2: the spec claims undo pops the top of `history`, discards it, and
sets `drawings` to the entry *below* the popped one.  Evaluating the
code on a room whose history is `[[], [opA], [opA, opB]]` with
`drawings = [opA, opB]`: the redo push and the pop happen as claimed,
but `drawings` becomes the popped entry `[opA, opB]` itself, not the
entry below (`[opA]`). -/
theorem undo_assigns_popped_entry :
    roomTwo.applyUndo.redoStack = [[opA, opB]] ∧
      roomTwo.applyUndo.history = [[], [opA]] ∧
      roomTwo.applyUndo.drawings = [opA, opB] ∧
      roomTwo.applyUndo.drawings ≠ [opA] := by decide

/-- C10: undo followed immediately by redo restores the whole room
state.  This holds on the code: redo pushes the current `drawings`
(which undo had set to the old history top) back onto `history`, and
pops the snapshot undo had pushed onto `redoStack`. -/
theorem undo_then_redo_roundtrip {α : Type} (r : Room α)
    (h : 1 < r.history.length) :
    (r.applyUndo).applyRedo = r := by
  obtain ⟨D, H, R, U, T⟩ := r
  have hne : H ≠ [] := by
    intro hnil
    rw [hnil] at h
    simp at h
  simp only [Room.applyUndo, Room.applyRedo] at h ⊢
  rw [if_pos h, if_pos (by simp : 0 < (R ++ [D]).length)]
  simp [List.getLast?_concat, List.dropLast_concat,
    List.getLast?_eq_getLast_of_ne_nil hne, List.dropLast_concat_getLast hne]

/-- Witness for C10's theorem at a concrete input. -/
theorem undo_then_redo_roundtrip_witness :
    1 < roomTwo.history.length ∧ (roomTwo.applyUndo).applyRedo = roomTwo :=
  ⟨by decide, undo_then_redo_roundtrip roomTwo (by decide)⟩

/-! ### C5: the history stack never becomes empty -/

/-- Every single canvas operation preserves `1 ≤ history.length`:
draw/redo/clear only push onto `history`, and undo pops only when the
length exceeds one. -/
theorem applyOp_history_length_pos {α : Type} (r : Room α) (c : CanvasOp α)
    (h : 1 ≤ r.history.length) : 1 ≤ (r.applyOp c).history.length := by
  cases c with
  | drawOp op =>
      simp only [Room.applyOp, Room.applyDraw]
      split
      · exact h
      · simp
  | undoOp =>
      simp only [Room.applyOp, Room.applyUndo]
      split
      · rename_i hlen
        simp only [List.length_dropLast]
        omega
      · exact h
  | redoOp =>
      simp only [Room.applyOp, Room.applyRedo]
      split
      · simp
      · exact h
  | clearOp =>
      simp only [Room.applyOp, Room.applyClear]
      simp

/-- Helper for C5: the invariant is preserved along any operation
sequence, for any starting room satisfying it. -/
theorem applyOps_history_length_pos {α : Type} (ops : List (CanvasOp α)) :
    ∀ r : Room α, 1 ≤ r.history.length →
      1 ≤ (r.applyOps ops).history.length := by
  induction ops with
  | nil => intro r h; exact h
  | cons c rest ih =>
      intro r h
      exact ih (r.applyOp c) (applyOp_history_length_pos r c h)

/-- C5: for every sequence of draw/undo/redo/clear operations applied to
a freshly created room, `history.length ≥ 1` holds after every step
(every prefix of the sequence is itself a sequence, so quantifying over
all sequences covers every intermediate state). -/
theorem fresh_room_history_never_empty {α : Type} (now : Nat)
    (ops : List (CanvasOp α)) :
    1 ≤ ((freshRoom α now).applyOps ops).history.length :=
  applyOps_history_length_pos ops (freshRoom α now) (by simp [freshRoom])

/-! ### C7: the reaper condition -/

/-- C7: `checkAndDeleteRoom` removes a room iff it exists, has zero
members, and at least five minutes (300000 ms) have elapsed since
`startTime`; in particular a room that exists and has at least one
member is never removed, and the table is left unchanged whenever the
room is not removed. -/
theorem checkAndDeleteRoom_spec {α : Type} (roomId : String) (now : Nat)
    (rooms : RoomMap α) :
    ((checkAndDeleteRoom roomId now rooms) roomId = none ↔
      (rooms roomId = none ∨
        ∃ room, rooms roomId = some room ∧ room.users.length = 0 ∧
          5 * 60 * 1000 ≤ now - room.startTime)) ∧
      (∀ room, rooms roomId = some room → room.users.length ≠ 0 →
        checkAndDeleteRoom roomId now rooms = rooms) := by
  constructor
  · unfold checkAndDeleteRoom
    cases hlook : rooms roomId with
    | none => simp [hlook]
    | some room =>
        simp only [hlook]
        by_cases hu : room.users.length = 0
        · by_cases ht : 5 * 60 * 1000 ≤ now - room.startTime
          · rw [if_pos hu, if_pos ht]
            constructor
            · intro _
              exact Or.inr ⟨room, rfl, hu, ht⟩
            · intro _
              simp [removeMap]
          · rw [if_pos hu, if_neg ht]
            rw [hlook]
            constructor
            · intro hc
              exact absurd hc (by simp)
            · rintro (hnone | ⟨room2, hr2, hu2, ht2⟩)
              · exact absurd hnone (by simp)
              · injection hr2 with h2
                subst h2
                exact absurd ht2 ht
        · rw [if_neg hu, hlook]
          constructor
          · intro hc
            exact absurd hc (by simp)
          · rintro (hnone | ⟨room2, hr2, hu2, ht2⟩)
            · exact absurd hnone (by simp)
            · injection hr2 with h2
              subst h2
              exact absurd hu2 hu
  · intro room hlook hu
    unfold checkAndDeleteRoom
    simp [hlook, hu]

/-- Witness for C7's theorem: a room with one member and an elapsed time
far past the window is not deleted, and the removal iff holds. -/
theorem checkAndDeleteRoom_spec_witness :
    ((checkAndDeleteRoom "r" 99999999 (updateMap emptyMap "r" roomTwo)) "r" = none ↔
      ((updateMap emptyMap "r" roomTwo) "r" = none ∨
        ∃ room, (updateMap emptyMap "r" roomTwo) "r" = some room ∧
          room.users.length = 0 ∧
          5 * 60 * 1000 ≤ 99999999 - room.startTime)) ∧
      (∀ room, (updateMap emptyMap "r" roomTwo) "r" = some room →
        room.users.length ≠ 0 →
        checkAndDeleteRoom "r" 99999999 (updateMap emptyMap "r" roomTwo) =
          updateMap emptyMap "r" roomTwo) :=
  checkAndDeleteRoom_spec "r" 99999999 (updateMap emptyMap "r" roomTwo)

/-! ### C8: a draw with empty strokes is a no-op -/

/-- C8: a `draw` event whose strokes list is empty leaves the room table
unchanged (hence `drawings`, `history` and `redoStack` of every room
unchanged) and produces no broadcast, for every room table, query room
id, payload room id, sender and readiness environment. -/
theorem draw_empty_strokes_noop {α : Type} (isOpen : Conn → Bool)
    (queryRoomId roomId : String) (ws : Conn) (rooms : RoomMap α) :
    handleMessage isOpen queryRoomId ws rooms
        (Inbound.msg (EventPayload.draw roomId (some []))) =
      Except.ok (rooms, []) := by
  unfold handleMessage
  cases hlook : rooms roomId <;> simp [hlook]

/-! ### C3: room creation on an identifier collision -/

/-- C3: the spec claims that a collision of the generated identifier
with a live room is handled by retrying generation, so an existing
room's state is never overwritten.  The code has no collision check —
`generateRoomId` is called once and `rooms[roomId]` is assigned
unconditionally (its own comment calls it "a unique room ID") — so a
creation request whose generated id equals a live room's id replaces
that room's state with a fresh one. -/
theorem createRoom_overwrites_on_collision :
    ((createRoom (updateMap emptyMap "abc123" roomTwo) "abc123" 7).1) "abc123" =
        some (freshRoom Nat 7) ∧
      freshRoom Nat 7 ≠ roomTwo := by
  constructor
  · rfl
  · decide

/-! ### C9: exceptions escaping the message handler -/

/-- Readiness environment in which every connection is open. -/
def allOpen : Conn → Bool := fun _ => true

/-- C9: the spec claims processing any inbound message never throws.
The code calls `JSON.parse` with no try/catch, and the draw handler
reads `drawData.strokes.length` without checking that `strokes` exists;
both throw out of the `message` listener (uncaught, by default fatal to
the process): here, both evaluate to `Except.error`. -/
theorem message_handler_throws :
    handleMessage allOpen "abc123" 1 (updateMap emptyMap "abc123" roomTwo)
        (Inbound.malformed (α := Nat)) = Except.error () ∧
      handleMessage allOpen "abc123" 1 (updateMap emptyMap "abc123" roomTwo)
        (Inbound.msg (EventPayload.draw "abc123" none)) = Except.error () := by
  constructor
  · rfl
  · rfl

/-! ### C4: which room the close handler touches -/

/-- Table with two live rooms "a" and "b" (both fresh). -/
def roomsAB : RoomMap Nat :=
  updateMap (updateMap emptyMap "a" (freshRoom Nat 0)) "b" (freshRoom Nat 0)

/-- The table after connection 5 — whose `room` query parameter was
"a" — joins room "b" via a `join-room` event (the join handler takes
the room id from the payload, so "b" is the room it most recently
joined). -/
def roomsAfterJoin : RoomMap Nat :=
  match handleMessage allOpen "a" 5 roomsAB
      (Inbound.msg (EventPayload.joinRoom "b" "alice")) with
  | .ok (m, _) => m
  | .error _ => roomsAB

/-- C4 counterexample: connection 5 most recently joined room "b" (its
member list is `[5]`), yet after the transport-level disconnect the
close handler — which uses the connection's `room` query parameter
"a" — leaves 5 in "b"'s member list, so the connection is NOT removed
from the room it most recently joined via a join event. -/
theorem close_leaves_last_joined_room :
    roomsAfterJoin "b" =
        some { drawings := [], history := [[]], redoStack := [],
               users := [5], startTime := 0 } ∧
      (handleClose "a" 5 0 roomsAfterJoin) "b" =
        some { drawings := [], history := [[]], redoStack := [],
               users := [5], startTime := 0 } := by
  constructor
  · rfl
  · rfl

/-- C4 amended: on transport-level disconnect the connection is removed
(all of its occurrences) from the membership of the room named by the
connection's `room` QUERY PARAMETER, when that room exists, and the
reaper check is then run on that room — so the query room's entry
becomes `none` exactly when its filtered member list is empty and five
minutes have elapsed, and every other room is untouched. -/
theorem handleClose_removes_query_room_member {α : Type}
    (queryRoomId : String) (ws : Conn) (now : Nat) (rooms : RoomMap α)
    (room : Room α) (hlook : rooms queryRoomId = some room) :
    ((handleClose queryRoomId ws now rooms) queryRoomId =
        if (room.users.filter fun c => c ≠ ws).length = 0 ∧
            5 * 60 * 1000 ≤ now - room.startTime then none
        else some (room.removeUser ws)) ∧
      (∀ rid, rid ≠ queryRoomId →
        (handleClose queryRoomId ws now rooms) rid = rooms rid) := by
  unfold handleClose
  simp only [hlook]
  unfold checkAndDeleteRoom
  have hm2 : (updateMap rooms queryRoomId (room.removeUser ws)) queryRoomId =
      some (room.removeUser ws) := by simp [updateMap]
  simp only [hm2]
  constructor
  · by_cases hu : (room.removeUser ws).users.length = 0
    · by_cases ht : 5 * 60 * 1000 ≤ now - (room.removeUser ws).startTime
      · rw [if_pos hu, if_pos ht]
        have : (room.users.filter fun c => c ≠ ws).length = 0 ∧
            5 * 60 * 1000 ≤ now - room.startTime := ⟨hu, ht⟩
        rw [if_pos this]
        simp [removeMap]
      · rw [if_pos hu, if_neg ht]
        have : ¬ ((room.users.filter fun c => c ≠ ws).length = 0 ∧
            5 * 60 * 1000 ≤ now - room.startTime) := fun hc => ht hc.2
        rw [if_neg this]
        simp [updateMap]
    · rw [if_neg hu]
      have : ¬ ((room.users.filter fun c => c ≠ ws).length = 0 ∧
          5 * 60 * 1000 ≤ now - room.startTime) := fun hc => hu hc.1
      rw [if_neg this]
      simp [updateMap]
  · intro rid hrid
    by_cases hu : (room.removeUser ws).users.length = 0
    · by_cases ht : 5 * 60 * 1000 ≤ now - (room.removeUser ws).startTime
      · rw [if_pos hu, if_pos ht]
        simp [removeMap, updateMap, hrid]
      · rw [if_pos hu, if_neg ht]
        simp [updateMap, hrid]
    · rw [if_neg hu]
      simp [updateMap, hrid]

/-- Witness for C4's amended theorem at a concrete input. -/
theorem handleClose_removes_query_room_member_witness :
    roomsAfterJoin "a" = some (freshRoom Nat 0) ∧
      (((handleClose "a" 5 0 roomsAfterJoin) "a" =
          if ((freshRoom Nat 0).users.filter fun c => c ≠ 5).length = 0 ∧
              5 * 60 * 1000 ≤ 0 - (freshRoom Nat 0).startTime then none
          else some ((freshRoom Nat 0).removeUser 5)) ∧
        (∀ rid, rid ≠ "a" →
          (handleClose "a" 5 0 roomsAfterJoin) rid = roomsAfterJoin rid)) :=
  ⟨by rfl, handleClose_removes_query_room_member "a" 5 0 roomsAfterJoin
    (freshRoom Nat 0) (by rfl)⟩

/-! ### C6: broadcast recipient sets -/

/-- None of the canvas mutations changes the member list: draw. -/
theorem Room.applyDraw_users {α : Type} (r : Room α) (op : DrawOp α) :
    (r.applyDraw op).users = r.users := by
  unfold Room.applyDraw
  split <;> rfl

/-- None of the canvas mutations changes the member list: undo. -/
theorem Room.applyUndo_users {α : Type} (r : Room α) :
    r.applyUndo.users = r.users := by
  unfold Room.applyUndo
  split <;> rfl

/-- None of the canvas mutations changes the member list: redo. -/
theorem Room.applyRedo_users {α : Type} (r : Room α) :
    r.applyRedo.users = r.users := by
  unfold Room.applyRedo
  split <;> rfl

/-- None of the canvas mutations changes the member list: clear. -/
theorem Room.applyClear_users {α : Type} (r : Room α) :
    r.applyClear.users = r.users := rfl

/-- Membership in a broadcast with an excluded originator. -/
theorem mem_broadcastTargets_some (users : List Conn) (isOpen : Conn → Bool)
    (u c : Conn) :
    c ∈ broadcastTargets users isOpen (some u) ↔
      c ∈ users ∧ c ≠ u ∧ isOpen c = true := by
  unfold broadcastTargets
  simp [List.mem_filter, and_assoc]

/-- Membership in a broadcast with no excluded connection. -/
theorem mem_broadcastTargets_none (users : List Conn) (isOpen : Conn → Bool)
    (c : Conn) :
    c ∈ broadcastTargets users isOpen none ↔ c ∈ users ∧ isOpen c = true := by
  unfold broadcastTargets
  simp [List.mem_filter]

/-- C6: the recipient set of every broadcast a room operation produces:
for `draw` and `user-joined`, every open member except the originating
connection (for `user-joined`, membership is taken after the join push);
for `undo`, `redo` and `clear`, every open member with no exclusion, so
the requester is included when it is an open member. -/
theorem broadcast_recipient_sets {α : Type} (isOpen : Conn → Bool)
    (queryRoomId : String) (ws : Conn) (rooms : RoomMap α) (room : Room α) :
    (∀ roomId strokes, rooms roomId = some room → strokes ≠ ([] : List α) →
      ∃ tgts, handleMessage isOpen queryRoomId ws rooms
            (Inbound.msg (EventPayload.draw roomId (some strokes))) =
          Except.ok (updateMap rooms roomId (room.applyDraw ⟨strokes⟩),
            [(OutMsg.drawMsg ⟨strokes⟩, tgts)]) ∧
        ∀ c, c ∈ tgts ↔ c ∈ room.users ∧ c ≠ ws ∧ isOpen c = true) ∧
    (∀ roomId username, rooms roomId = some room →
      ∃ tgts, handleMessage isOpen queryRoomId ws rooms
            (Inbound.msg (EventPayload.joinRoom roomId username)) =
          Except.ok (updateMap rooms roomId (room.joinUser ws),
            [(OutMsg.userJoined username, tgts)]) ∧
        ∀ c, c ∈ tgts ↔ c ∈ room.users ++ [ws] ∧ c ≠ ws ∧ isOpen c = true) ∧
    (rooms queryRoomId = some room → 1 < room.history.length →
      ∃ tgts, handleMessage isOpen queryRoomId ws rooms
            (Inbound.msg EventPayload.undoEv) =
          Except.ok (updateMap rooms queryRoomId room.applyUndo,
            [(OutMsg.updateCanvas room.applyUndo.drawings, tgts)]) ∧
        ∀ c, c ∈ tgts ↔ c ∈ room.users ∧ isOpen c = true) ∧
    (rooms queryRoomId = some room → 0 < room.redoStack.length →
      ∃ tgts, handleMessage isOpen queryRoomId ws rooms
            (Inbound.msg EventPayload.redoEv) =
          Except.ok (updateMap rooms queryRoomId room.applyRedo,
            [(OutMsg.updateCanvas room.applyRedo.drawings, tgts)]) ∧
        ∀ c, c ∈ tgts ↔ c ∈ room.users ∧ isOpen c = true) ∧
    (rooms queryRoomId = some room →
      ∃ tgts, handleMessage isOpen queryRoomId ws rooms
            (Inbound.msg EventPayload.clearEv) =
          Except.ok (updateMap rooms queryRoomId room.applyClear,
            [(OutMsg.updateCanvas room.applyClear.drawings, tgts)]) ∧
        ∀ c, c ∈ tgts ↔ c ∈ room.users ∧ isOpen c = true) := by
  refine ⟨?_, ?_, ?_, ?_, ?_⟩
  · intro roomId strokes hlook hs
    refine ⟨broadcastTargets (room.applyDraw ⟨strokes⟩).users isOpen (some ws),
      ?_, ?_⟩
    · unfold handleMessage
      simp only [hlook]
      rw [if_neg (by simpa using hs)]
    · intro c
      rw [Room.applyDraw_users]
      exact mem_broadcastTargets_some room.users isOpen ws c
  · intro roomId username hlook
    refine ⟨broadcastTargets (room.joinUser ws).users isOpen (some ws), ?_, ?_⟩
    · unfold handleMessage
      simp only [hlook]
    · intro c
      exact mem_broadcastTargets_some (room.users ++ [ws]) isOpen ws c
  · intro hlook hh
    refine ⟨broadcastTargets room.applyUndo.users isOpen none, ?_, ?_⟩
    · unfold handleMessage
      simp only [hlook]
      rw [if_pos hh]
    · intro c
      rw [Room.applyUndo_users]
      exact mem_broadcastTargets_none room.users isOpen c
  · intro hlook hr
    refine ⟨broadcastTargets room.applyRedo.users isOpen none, ?_, ?_⟩
    · unfold handleMessage
      simp only [hlook]
      rw [if_pos hr]
    · intro c
      rw [Room.applyRedo_users]
      exact mem_broadcastTargets_none room.users isOpen c
  · intro hlook
    refine ⟨broadcastTargets room.applyClear.users isOpen none, ?_, ?_⟩
    · unfold handleMessage
      simp only [hlook]
    · intro c
      rw [Room.applyClear_users]
      exact mem_broadcastTargets_none room.users isOpen c

/-- A room with both a non-trivial history and a non-empty redo stack,
with two members. -/
def roomRich : Room Nat :=
  { drawings := [opA]
    history := [[], [opA]]
    redoStack := [[opA, opB]]
    users := [1, 2]
    startTime := 0 }

/-- Table holding `roomRich` under the id "r". -/
def roomsR : RoomMap Nat := updateMap emptyMap "r" roomRich

/-- Witness for C6's theorem: all five broadcast cases at a concrete
room table, originator and readiness environment. -/
theorem broadcast_recipient_sets_witness :
    (∃ tgts, handleMessage allOpen "r" 1 roomsR
          (Inbound.msg (EventPayload.draw "r" (some [9]))) =
        Except.ok (updateMap roomsR "r" (roomRich.applyDraw ⟨[9]⟩),
          [(OutMsg.drawMsg ⟨[9]⟩, tgts)]) ∧
      ∀ c, c ∈ tgts ↔ c ∈ roomRich.users ∧ c ≠ 1 ∧ allOpen c = true) ∧
    (∃ tgts, handleMessage allOpen "r" 1 roomsR
          (Inbound.msg (EventPayload.joinRoom "r" "alice")) =
        Except.ok (updateMap roomsR "r" (roomRich.joinUser 1),
          [(OutMsg.userJoined "alice", tgts)]) ∧
      ∀ c, c ∈ tgts ↔ c ∈ roomRich.users ++ [1] ∧ c ≠ 1 ∧ allOpen c = true) ∧
    (∃ tgts, handleMessage allOpen "r" 1 roomsR
          (Inbound.msg EventPayload.undoEv) =
        Except.ok (updateMap roomsR "r" roomRich.applyUndo,
          [(OutMsg.updateCanvas roomRich.applyUndo.drawings, tgts)]) ∧
      ∀ c, c ∈ tgts ↔ c ∈ roomRich.users ∧ allOpen c = true) ∧
    (∃ tgts, handleMessage allOpen "r" 1 roomsR
          (Inbound.msg EventPayload.redoEv) =
        Except.ok (updateMap roomsR "r" roomRich.applyRedo,
          [(OutMsg.updateCanvas roomRich.applyRedo.drawings, tgts)]) ∧
      ∀ c, c ∈ tgts ↔ c ∈ roomRich.users ∧ allOpen c = true) ∧
    (∃ tgts, handleMessage allOpen "r" 1 roomsR
          (Inbound.msg EventPayload.clearEv) =
        Except.ok (updateMap roomsR "r" roomRich.applyClear,
          [(OutMsg.updateCanvas roomRich.applyClear.drawings, tgts)]) ∧
      ∀ c, c ∈ tgts ↔ c ∈ roomRich.users ∧ allOpen c = true) :=
  ⟨(broadcast_recipient_sets allOpen "r" 1 roomsR roomRich).1 "r" [9]
      (by rfl) (by decide),
    (broadcast_recipient_sets allOpen "r" 1 roomsR roomRich).2.1 "r" "alice"
      (by rfl),
    (broadcast_recipient_sets allOpen "r" 1 roomsR roomRich).2.2.1
      (by rfl) (by decide),
    (broadcast_recipient_sets allOpen "r" 1 roomsR roomRich).2.2.2.1
      (by rfl) (by decide),
    (broadcast_recipient_sets allOpen "r" 1 roomsR roomRich).2.2.2.2 (by rfl)⟩
